import Mathlib

/-!
A shallow embedding of the match-prediction backend (`src/api.py`).

The source is a small FastAPI service over a pandas `DataFrame` `df` loaded
once from a CSV with columns {date, Team, Opponent, Result, GF, GA, xG}.
We model the frame as an explicit immutable `Store` value passed to every
function (the spec's "explicit immutable handle" for the module-level global).

Modelling decisions, each matching a pandas behaviour used by the source:
* `df[mask]`            → `List.filter` (order preserving);
* `.sort_values(by='date', ascending=False)` → a deterministic descending
  insertion sort on the `date` key.  pandas' default quicksort is unstable,
  so the source fixes no particular order among equal dates; the model picks
  one deterministic order, which is all any claim depends on;
* `.head(n)`            → `List.take n`;
* `(series == v).sum()` → `List.countP`;
* `.mean()`             → `none` (the NaN sentinel) on an empty selection,
  otherwise `some (sum / length)` over `ℚ`; for the optional `xG` column the
  mean skips missing entries (pandas `skipna=True`);
* float `NaN` ordering  → `nanGt`: any comparison involving the sentinel is
  `false`, as for IEEE NaN in Python;
* `'xG' in recent`      → `Store.hasXg`: whether the loaded CSV has the `xG`
  column at all (a per-frame fact, constant across requests).  The spec's
  schema contract (§6) fixes it to `true` for the deployed data.
* Python `f"{x:.2f}"`   → `fmt2`, decimal rendering with two digits after
  the point ("nan" for the sentinel).  Exact float-rounding ties are not
  modelled; no claim depends on them.
-/

namespace Predictor

/-- Match result from the subject team's perspective; the CSV stores the
strings 'W' / 'D' / 'L' (spec §3: one of {Win, Draw, Loss}). -/
inductive Result where
  | W
  | D
  | L
deriving DecidableEq

/-- One row of the match-history store: a single real match appears as two
mirrored rows, one per team's perspective (spec §3).  `xg` is optional per
row (spec §3: "may be absent for a given row"). -/
structure Row where
  date : Nat
  team : String
  opponent : String
  result : Result
  gf : ℚ
  ga : ℚ
  xg : Option ℚ
deriving DecidableEq

/-- The match-history store: the rows of the CSV, plus whether the `xG`
column is present in the frame at all (tested by `'xG' in recent` in
`get_team_form`). -/
structure Store where
  rows : List Row
  hasXg : Bool
deriving DecidableEq

/-- Insert a row into a list sorted by date descending (helper for the model
of `sort_values(by='date', ascending=False)`). -/
def insertDesc (r : Row) : List Row → List Row
  | [] => [r]
  | x :: xs => if r.date ≤ x.date then x :: insertDesc r xs else r :: x :: xs

/-- `sort_values(by='date', ascending=False)`: deterministic descending sort
on the `date` key. -/
def sortByDateDesc : List Row → List Row
  | [] => []
  | x :: xs => insertDesc x (sortByDateDesc xs)

/-- `df[df['Team'] == team].sort_values(by='date', ascending=False).head(n)`:
the window of the `n` most recent rows of one team (lines 58 and 126-127 of
the source). -/
def team_window (st : Store) (team : String) (n : Nat) : List Row :=
  (sortByDateDesc (st.rows.filter (fun r => decide (r.team = team)))).take n

/-- The head-to-head row filter of `get_head_to_head` (lines 75-76) and of
`predict` (lines 128-129): rows between the two named teams, either way
round. -/
def h2hPred (home away : String) (r : Row) : Bool :=
  decide ((r.team = home ∧ r.opponent = away) ∨ (r.team = away ∧ r.opponent = home))

/-- The selected head-to-head window: filter, sort by date descending, take
`n` (lines 75-77 and 128-129). -/
def h2h_window (st : Store) (home away : String) (n : Nat) : List Row :=
  (sortByDateDesc (st.rows.filter (h2hPred home away))).take n

/-- `.mean()` of a numeric column: NaN (modelled `none`) over an empty
selection, else the rational average. -/
def meanQ (l : List ℚ) : Option ℚ :=
  if l.isEmpty then none else some (l.sum / (l.length : ℚ))

/-- `.mean()` of the optional `xG` column: pandas skips missing entries
(`skipna=True`), NaN when none remain. -/
def meanOpt (l : List (Option ℚ)) : Option ℚ :=
  meanQ (l.filterMap id)

/-- Python `>` on possibly-NaN floats: any comparison involving the NaN
sentinel is `false` (never an exception). -/
def nanGt : Option ℚ → Option ℚ → Bool
  | some x, some y => decide (y < x)
  | _, _ => false

/-- Form snapshot (spec §3), the dict returned by `get_team_form`. -/
structure Form where
  wins : Nat
  draws : Nat
  losses : Nat
  avg_gf : Option ℚ
  avg_ga : Option ℚ
  avg_xg : Option ℚ
deriving DecidableEq

/-- Head-to-head snapshot (spec §3), the dict returned by
`get_head_to_head`. -/
structure H2H where
  home_wins : Nat
  away_wins : Nat
  draws : Nat
deriving DecidableEq

/-- `get_team_form(df, team, n=5)` (source lines 57-72). -/
def get_team_form (st : Store) (team : String) (n : Nat := 5) : Form :=
  let recent := team_window st team n
  { wins := recent.countP (fun r => decide (r.result = Result.W))
    draws := recent.countP (fun r => decide (r.result = Result.D))
    losses := recent.countP (fun r => decide (r.result = Result.L))
    avg_gf := meanQ (recent.map Row.gf)
    avg_ga := meanQ (recent.map Row.ga)
    avg_xg := if st.hasXg then meanOpt (recent.map Row.xg) else some 0 }

/-- `get_head_to_head(df, home, away, n=5)` (source lines 74-81). -/
def get_head_to_head (st : Store) (home away : String) (n : Nat := 5) : H2H :=
  let h2h := h2h_window st home away n
  { home_wins := h2h.countP (fun r => decide (r.team = home ∧ r.result = Result.W))
    away_wins := h2h.countP (fun r => decide (r.team = away ∧ r.result = Result.W))
    draws := h2h.countP (fun r => decide (r.result = Result.D)) }

/-- `rule_based_prediction(home_team, away_team)` (source lines 83-109). -/
def rule_based_prediction (st : Store) (home_team away_team : String) : String :=
  let home := get_team_form st home_team
  let away := get_team_form st away_team
  let h2h := get_head_to_head st home_team away_team
  let home_score : Nat :=
    home.wins
    + (if nanGt home.avg_gf away.avg_ga then 1 else 0)
    + (if nanGt home.avg_xg away.avg_xg then 1 else 0)
    + h2h.home_wins
  let away_score : Nat :=
    away.wins
    + (if nanGt away.avg_gf home.avg_ga then 1 else 0)
    + (if nanGt away.avg_xg home.avg_xg then 1 else 0)
    + h2h.away_wins
  let diff : Int := (home_score : Int) - (away_score : Int)
  if diff ≥ 2 then home_team ++ " to win"
  else if diff ≤ -2 then away_team ++ " to win"
  else "Draw"

/-- Two-digit zero-padding for the fractional part of `fmt2`. -/
def pad2 (k : Nat) : String :=
  if k < 10 then "0" ++ toString k else toString k

/-- Python `f"{x:.2f}"` on a possibly-NaN mean: "nan" for the sentinel, else
the value rendered with two digits after the decimal point. -/
def fmt2 : Option ℚ → String
  | none => "nan"
  | some q =>
      let n : Int := round (q * 100)
      (if n < 0 then "-" else "")
        ++ toString (n.natAbs / 100) ++ "." ++ pad2 (n.natAbs % 100)

/-- `summarize_form(matches, team_name)` (source lines 31-40): the
three-line form block. -/
def summarize_form (matchRows : List Row) (team_name : String) : String :=
  let wins := matchRows.countP (fun r => decide (r.result = Result.W))
  let draws := matchRows.countP (fun r => decide (r.result = Result.D))
  let losses := matchRows.countP (fun r => decide (r.result = Result.L))
  let avg_goals_for := meanQ (matchRows.map Row.gf)
  let avg_goals_against := meanQ (matchRows.map Row.ga)
  team_name ++ " - Last " ++ toString matchRows.length ++ " Matches:\n"
    ++ "- Wins: " ++ toString wins ++ ", Draws: " ++ toString draws
    ++ ", Losses: " ++ toString losses ++ "\n"
    ++ "- Avg Goals Scored: " ++ fmt2 avg_goals_for
    ++ ", Avg Goals Conceded: " ++ fmt2 avg_goals_against

/-- `summarize_h2h(matches, home, away)` (source lines 42-51): the
head-to-head block, or the literal no-data message on an empty selection. -/
def summarize_h2h (matchRows : List Row) (home away : String) : String :=
  if matchRows.isEmpty then "No recent head-to-head match data available."
  else
    let total := matchRows.length
    let home_wins := matchRows.countP (fun r => decide (r.team = home ∧ r.result = Result.W))
    let away_wins := matchRows.countP (fun r => decide (r.team = away ∧ r.result = Result.W))
    let draws := matchRows.countP (fun r => decide (r.result = Result.D))
    "Head-to-Head (" ++ home ++ " vs " ++ away ++ ") - Last " ++ toString total
      ++ " Matches:\n- " ++ home ++ " Wins: " ++ toString home_wins
      ++ ", " ++ away ++ " Wins: " ++ toString away_wins
      ++ ", Draws: " ++ toString draws

/-- The JSON body of a `/predict` request: `data.get("home_team")` /
`data.get("away_team")` give `None` when the key is missing. -/
structure PredictRequest where
  home_team : Option String
  away_team : Option String
deriving DecidableEq

/-- Python truthiness of `data.get(...)` for a string field: falsy iff the
key is missing (`None`) or the string is empty. -/
def falsy : Option String → Bool
  | none => true
  | some s => decide (s = "")

/-- The JSON value returned by the `/predict` handler: either the soft-error
object or the success object with `prediction`, `stats`, `discussion`. -/
inductive Response where
  | error (msg : String)
  | success (prediction : String) (stats : List String) (discussion : String)
deriving DecidableEq

/-- The `stats` array of a success response (`[]` for the error object). -/
def Response.stats : Response → List String
  | .error _ => []
  | .success _ s _ => s

/-- The `prediction` field of a success response (`""` for the error
object). -/
def Response.prediction : Response → String
  | .error _ => ""
  | .success p _ _ => p

/-- The `discussion` field of a success response (`""` for the error
object). -/
def Response.discussion : Response → String
  | .error _ => ""
  | .success _ _ d => d

/-- Python `s.splitlines()[i]`: the `i`-th line of a block (all blocks built
by the source contain no trailing newline, so splitting on `'\n'` agrees
with `splitlines`). -/
def lineAt (s : String) (i : Nat) : String :=
  (s.splitOn "\n").getD i ""

/-- Python `s.splitlines()[-1]`: the last line of a block. -/
def lastLine (s : String) : String :=
  ((s.splitOn "\n").getLast?).getD ""

/-- The `predict` endpoint handler (source lines 115-143), as a pure
function of the store and the request body. -/
def predict (st : Store) (req : PredictRequest) : Response :=
  if falsy req.home_team || falsy req.away_team then
    Response.error "Missing team names."
  else
    let home_team := req.home_team.getD ""
    let away_team := req.away_team.getD ""
    let prediction := rule_based_prediction st home_team away_team
    let home_form := summarize_form (team_window st home_team 10) home_team
    let away_form := summarize_form (team_window st away_team 10) away_team
    let h2h_matches := h2h_window st home_team away_team 10
    let h2h_form := summarize_h2h h2h_matches home_team away_team
    let discussion := String.trim
      (home_team ++ " comes into this fixture with " ++ lineAt home_form 1 ++ ". "
        ++ away_team ++ " shows " ++ lineAt away_form 1 ++ ". "
        ++ "The head-to-head record suggests: " ++ lastLine h2h_form ++ ". "
        ++ "Considering form and past performance, this match is predicted to end in: "
        ++ prediction.toLower ++ ".")
    Response.success prediction [home_form, away_form, h2h_form] discussion

/-! ## General lemmas about the embedded operations -/

/-- Every row has exactly one of the three results, so the three counts of a
window partition its length. -/
lemma countP_result_partition (l : List Row) :
    l.countP (fun r => decide (r.result = Result.W))
      + l.countP (fun r => decide (r.result = Result.D))
      + l.countP (fun r => decide (r.result = Result.L)) = l.length := by
  induction l with
  | nil => rfl
  | cons x xs ih =>
      cases hx : x.result <;>
        simp [List.countP_cons, hx] <;> omega

lemma length_insertDesc (r : Row) (l : List Row) :
    (insertDesc r l).length = l.length + 1 := by
  induction l with
  | nil => rfl
  | cons x xs ih =>
      unfold insertDesc
      split <;> simp [ih]

/-- The model of `sort_values` is a permutation, in particular it preserves
length. -/
lemma length_sortByDateDesc (l : List Row) :
    (sortByDateDesc l).length = l.length := by
  induction l with
  | nil => rfl
  | cons x xs ih => simp [sortByDateDesc, length_insertDesc, ih]

/-- The head-to-head filter is symmetric in the two team names, so the
selected window is the same whichever way round the names are given. -/
lemma h2h_window_comm (st : Store) (A B : String) (n : Nat) :
    h2h_window st A B n = h2h_window st B A n := by
  unfold h2h_window
  have h : st.rows.filter (h2hPred A B) = st.rows.filter (h2hPred B A) :=
    List.filter_congr (fun r _ => by
      simp only [h2hPred, decide_eq_decide]
      exact or_comm)
  rw [h]

/-! ## Claims -/

/-- **C1.**  For every store and pair of team names, the Outcome Scorer
computes `home_score = home.wins + [avg_gf > away avg_ga] + [avg_xg > away
avg_xg] + h2h.home_wins` over the N=5 windows, `away_score` symmetrically,
and returns the home-win verdict iff `home_score - away_score ≥ 2`, the
away-win verdict iff the difference is ≤ -2, and the draw verdict
otherwise. -/
theorem c1_outcome_scorer (st : Store) (home_team away_team : String) :
    rule_based_prediction st home_team away_team =
      (let home := get_team_form st home_team 5
       let away := get_team_form st away_team 5
       let h2h := get_head_to_head st home_team away_team 5
       let home_score : Nat :=
         home.wins + (if nanGt home.avg_gf away.avg_ga then 1 else 0)
           + (if nanGt home.avg_xg away.avg_xg then 1 else 0) + h2h.home_wins
       let away_score : Nat :=
         away.wins + (if nanGt away.avg_gf home.avg_ga then 1 else 0)
           + (if nanGt away.avg_xg home.avg_xg then 1 else 0) + h2h.away_wins
       if (home_score : Int) - (away_score : Int) ≥ 2 then home_team ++ " to win"
       else if (home_score : Int) - (away_score : Int) ≤ -2 then away_team ++ " to win"
       else "Draw") :=
  rfl

/-- **C3.**  Swapping the two team names swaps `home_wins` and `away_wins`
of the head-to-head snapshot and leaves `draws` unchanged, for every store,
pair of names and window size. -/
theorem c3_h2h_swap (st : Store) (A B : String) (n : Nat) :
    (get_head_to_head st A B n).home_wins = (get_head_to_head st B A n).away_wins ∧
    (get_head_to_head st A B n).away_wins = (get_head_to_head st B A n).home_wins ∧
    (get_head_to_head st A B n).draws = (get_head_to_head st B A n).draws := by
  have hw := h2h_window_comm st A B n
  refine ⟨?_, ?_, ?_⟩ <;>
    · show List.countP _ (h2h_window st A B n) = List.countP _ (h2h_window st B A n)
      rw [hw]

/-- Helper for C10: the verdict of two equal scores is always "Draw". -/
lemma ite_verdict_self (n : Nat) (s1 s2 : String) :
    (if (n : Int) - (n : Int) ≥ 2 then s1
     else if (n : Int) - (n : Int) ≤ -2 then s2
     else "Draw") = "Draw" := by
  norm_num

/-- **C10.**  Scoring a team against itself always yields the draw verdict:
both form snapshots coincide, the bonus comparisons are symmetric, and the
head-to-head `home_wins` and `away_wins` count the same rows. -/
theorem c10_self_vs_self_draw (st : Store) (X : String) :
    rule_based_prediction st X X = "Draw" := by
  unfold rule_based_prediction
  exact ite_verdict_self _ _ _

/-- Shared helper: a team with no rows in the store yields the all-zero,
all-NaN form snapshot (when the `xG` column is present, as the schema
contract of spec §6 guarantees). -/
lemma form_of_absent_team (st : Store) (team : String) (n : Nat)
    (hx : st.hasXg = true) (h : ∀ r ∈ st.rows, r.team ≠ team) :
    get_team_form st team n =
      { wins := 0, draws := 0, losses := 0,
        avg_gf := none, avg_ga := none, avg_xg := none } := by
  have hf : st.rows.filter (fun r => decide (r.team = team)) = [] := by
    rw [List.filter_eq_nil_iff]
    intro r hr
    simpa using h r hr
  have hw : team_window st team n = [] := by
    unfold team_window
    rw [hf]
    simp [sortByDateDesc]
  simp [get_team_form, hw, meanQ, meanOpt, hx]

/-- Case split on the final verdict `if`-chain of the scorer. -/
lemma verdict_mem (d : Int) (s1 s2 : String) :
    (if d ≥ 2 then s1 else if d ≤ -2 then s2 else "Draw") = s1
      ∨ (if d ≥ 2 then s1 else if d ≤ -2 then s2 else "Draw") = s2
      ∨ (if d ≥ 2 then s1 else if d ≤ -2 then s2 else "Draw") = "Draw" := by
  split
  · exact Or.inl rfl
  · split
    · exact Or.inr (Or.inl rfl)
    · exact Or.inr (Or.inr rfl)

/-- Shared helper: the scorer always returns one of the three verdict
strings, whatever the store holds. -/
lemma rbp_verdict_cases (st : Store) (home away : String) :
    rule_based_prediction st home away = home ++ " to win"
      ∨ rule_based_prediction st home away = away ++ " to win"
      ∨ rule_based_prediction st home away = "Draw" := by
  unfold rule_based_prediction
  exact verdict_mem _ _ _

/-- Shared helper: `nanGt` is `false` whenever either side is the NaN
sentinel. -/
lemma nanGt_none (x : Option ℚ) : nanGt none x = false ∧ nanGt x none = false := by
  cases x <;> simp [nanGt]

/-- **C5.**  A team with at least 5 recorded matches gets a form snapshot
whose `wins + draws + losses` is exactly 5 (window size N = 5). -/
theorem c5_form_counts_sum_to_five (st : Store) (team : String)
    (h : 5 ≤ (st.rows.filter (fun r => decide (r.team = team))).length) :
    (get_team_form st team 5).wins + (get_team_form st team 5).draws
      + (get_team_form st team 5).losses = 5 := by
  show (team_window st team 5).countP _ + (team_window st team 5).countP _
      + (team_window st team 5).countP _ = 5
  rw [countP_result_partition]
  unfold team_window
  rw [List.length_take, length_sortByDateDesc]
  exact Nat.min_eq_left h

/-- A five-match store for one team, exercising C5 concretely. -/
def c5Row (i : Nat) : Row :=
  { date := i, team := "T", opponent := "U", result := Result.W, gf := 1, ga := 0, xg := none }

def c5Store : Store :=
  { rows := [c5Row 1, c5Row 2, c5Row 3, c5Row 4, c5Row 5], hasXg := true }

theorem c5_witness :
    5 ≤ (c5Store.rows.filter (fun r => decide (r.team = "T"))).length ∧
    (get_team_form c5Store "T" 5).wins + (get_team_form c5Store "T" 5).draws
      + (get_team_form c5Store "T" 5).losses = 5 :=
  ⟨by decide, c5_form_counts_sum_to_five c5Store "T" (by decide)⟩

/-- **C6.**  A team with no recorded matches gets the all-zero form snapshot
with the NaN sentinel for every average (the `xG` column being present, per
the spec §6 schema contract). -/
theorem c6_unknown_team_form (st : Store) (team : String)
    (hx : st.hasXg = true) (h : ∀ r ∈ st.rows, r.team ≠ team) :
    get_team_form st team 5 =
      { wins := 0, draws := 0, losses := 0,
        avg_gf := none, avg_ga := none, avg_xg := none } :=
  form_of_absent_team st team 5 hx h

def c6Store : Store :=
  { rows := [{ date := 1, team := "A", opponent := "B", result := Result.W,
               gf := 2, ga := 0, xg := some 1 }], hasXg := true }

theorem c6_witness :
    c6Store.hasXg = true ∧ (∀ r ∈ c6Store.rows, r.team ≠ "Z") ∧
    get_team_form c6Store "Z" 5 =
      { wins := 0, draws := 0, losses := 0,
        avg_gf := none, avg_ga := none, avg_xg := none } :=
  ⟨rfl, by decide, c6_unknown_team_form c6Store "Z" rfl (by decide)⟩

/-- **C4.**  With a queried team absent from the store, its averages are all
the NaN sentinel, every ordering comparison against the sentinel is `false`
(`nanGt` is a total Boolean function, so the scorer cannot throw), and the
scorer still returns one of the three verdicts. -/
theorem c4_absent_team_total (st : Store) (home away : String)
    (hx : st.hasXg = true)
    (habs : (∀ r ∈ st.rows, r.team ≠ home) ∨ (∀ r ∈ st.rows, r.team ≠ away)) :
    (((get_team_form st home 5).avg_gf = none ∧ (get_team_form st home 5).avg_ga = none
        ∧ (get_team_form st home 5).avg_xg = none)
      ∨ ((get_team_form st away 5).avg_gf = none ∧ (get_team_form st away 5).avg_ga = none
        ∧ (get_team_form st away 5).avg_xg = none)) ∧
    (∀ x, nanGt none x = false ∧ nanGt x none = false) ∧
    (rule_based_prediction st home away = home ++ " to win"
      ∨ rule_based_prediction st home away = away ++ " to win"
      ∨ rule_based_prediction st home away = "Draw") := by
  refine ⟨?_, nanGt_none, rbp_verdict_cases st home away⟩
  rcases habs with h | h
  · exact Or.inl (by rw [form_of_absent_team st home 5 hx h]; exact ⟨rfl, rfl, rfl⟩)
  · exact Or.inr (by rw [form_of_absent_team st away 5 hx h]; exact ⟨rfl, rfl, rfl⟩)

theorem c4_witness :
    c6Store.hasXg = true ∧ (∀ r ∈ c6Store.rows, r.team ≠ "Z") ∧
    ((((get_team_form c6Store "Z" 5).avg_gf = none
        ∧ (get_team_form c6Store "Z" 5).avg_ga = none
        ∧ (get_team_form c6Store "Z" 5).avg_xg = none)
      ∨ ((get_team_form c6Store "A" 5).avg_gf = none
        ∧ (get_team_form c6Store "A" 5).avg_ga = none
        ∧ (get_team_form c6Store "A" 5).avg_xg = none)) ∧
    (∀ x, nanGt none x = false ∧ nanGt x none = false) ∧
    (rule_based_prediction c6Store "Z" "A" = "Z" ++ " to win"
      ∨ rule_based_prediction c6Store "Z" "A" = "A" ++ " to win"
      ∨ rule_based_prediction c6Store "Z" "A" = "Draw")) :=
  ⟨rfl, by decide, c4_absent_team_total c6Store "Z" "A" rfl (Or.inl (by decide))⟩

/-- **C7.**  A request whose `home_team` or `away_team` is missing or the
empty string gets exactly the soft-error object; the result does not depend
on the store at all, so no aggregation or scoring is performed. -/
theorem c7_missing_team_names (st : Store) (req : PredictRequest)
    (h : req.home_team = none ∨ req.home_team = some ""
      ∨ req.away_team = none ∨ req.away_team = some "") :
    predict st req = Response.error "Missing team names." := by
  have hc : (falsy req.home_team || falsy req.away_team) = true := by
    rcases h with h | h | h | h <;> simp [falsy, h]
  simp [predict, hc]

theorem c7_witness :
    ((⟨some "", some "Chelsea"⟩ : PredictRequest).home_team = none
      ∨ (⟨some "", some "Chelsea"⟩ : PredictRequest).home_team = some ""
      ∨ (⟨some "", some "Chelsea"⟩ : PredictRequest).away_team = none
      ∨ (⟨some "", some "Chelsea"⟩ : PredictRequest).away_team = some "") ∧
    predict c6Store ⟨some "", some "Chelsea"⟩ = Response.error "Missing team names." :=
  ⟨Or.inr (Or.inl rfl),
   c7_missing_team_names c6Store ⟨some "", some "Chelsea"⟩ (Or.inr (Or.inl rfl))⟩

/-- Shared helper: on a valid request the handler returns the success object
whose three stats blocks and discussion are built exactly as in source lines
124-143. -/
lemma predict_success (st : Store) (h a : String) (hh : h ≠ "") (ha : a ≠ "") :
    predict st ⟨some h, some a⟩ =
      Response.success (rule_based_prediction st h a)
        [summarize_form (team_window st h 10) h,
         summarize_form (team_window st a 10) a,
         summarize_h2h (h2h_window st h a 10) h a]
        (String.trim
          (h ++ " comes into this fixture with "
            ++ lineAt (summarize_form (team_window st h 10) h) 1 ++ ". "
            ++ a ++ " shows "
            ++ lineAt (summarize_form (team_window st a 10) a) 1 ++ ". "
            ++ "The head-to-head record suggests: "
            ++ lastLine (summarize_h2h (h2h_window st h a 10) h a) ++ ". "
            ++ "Considering form and past performance, this match is predicted to end in: "
            ++ (rule_based_prediction st h a).toLower ++ ".")) := by
  have hc : (falsy (some h) || falsy (some a)) = false := by
    simp [falsy, hh, ha]
  simp [predict, hc]

/-- **C8.**  For a valid request naming two teams with no head-to-head rows
in the store, the third entry of `stats` is exactly the literal no-data
message, not a zero-filled summary block. -/
theorem c8_no_h2h_message (st : Store) (h a : String) (hh : h ≠ "") (ha : a ≠ "")
    (hnone : ∀ r ∈ st.rows, h2hPred h a r = false) :
    (predict st ⟨some h, some a⟩).stats.getD 2 "" =
      "No recent head-to-head match data available." := by
  rw [predict_success st h a hh ha]
  have hf : st.rows.filter (h2hPred h a) = [] :=
    List.filter_eq_nil_iff.mpr (fun r hr => by simp [hnone r hr])
  have hw : h2h_window st h a 10 = [] := by
    unfold h2h_window
    rw [hf]
    simp [sortByDateDesc]
  simp [Response.stats, hw, summarize_h2h]

theorem c8_witness :
    ("A" : String) ≠ "" ∧ ("C" : String) ≠ "" ∧
    (∀ r ∈ c6Store.rows, h2hPred "A" "C" r = false) ∧
    (predict c6Store ⟨some "A", some "C"⟩).stats.getD 2 "" =
      "No recent head-to-head match data available." :=
  ⟨by decide, by decide, by decide,
   c8_no_h2h_message c6Store "A" "C" (by decide) (by decide) (by decide)⟩

/-- **C9.**  On every success the discussion paragraph is assembled from the
second line of the home form block, the second line of the away form block
and the last line of the head-to-head block, and closes with the lower-cased
prediction (followed by the final period, the whole paragraph stripped). -/
theorem c9_discussion_structure (st : Store) (h a : String)
    (hh : h ≠ "") (ha : a ≠ "") :
    (predict st ⟨some h, some a⟩).discussion =
      String.trim
        (h ++ " comes into this fixture with "
          ++ lineAt ((predict st ⟨some h, some a⟩).stats.getD 0 "") 1 ++ ". "
          ++ a ++ " shows "
          ++ lineAt ((predict st ⟨some h, some a⟩).stats.getD 1 "") 1 ++ ". "
          ++ "The head-to-head record suggests: "
          ++ lastLine ((predict st ⟨some h, some a⟩).stats.getD 2 "") ++ ". "
          ++ "Considering form and past performance, this match is predicted to end in: "
          ++ ((predict st ⟨some h, some a⟩).prediction).toLower ++ ".") := by
  rw [predict_success st h a hh ha]
  rfl

theorem c9_witness :
    ("A" : String) ≠ "" ∧ ("B" : String) ≠ "" ∧
    (predict c6Store ⟨some "A", some "B"⟩).discussion =
      String.trim
        ("A" ++ " comes into this fixture with "
          ++ lineAt ((predict c6Store ⟨some "A", some "B"⟩).stats.getD 0 "") 1 ++ ". "
          ++ "B" ++ " shows "
          ++ lineAt ((predict c6Store ⟨some "A", some "B"⟩).stats.getD 1 "") 1 ++ ". "
          ++ "The head-to-head record suggests: "
          ++ lastLine ((predict c6Store ⟨some "A", some "B"⟩).stats.getD 2 "") ++ ". "
          ++ "Considering form and past performance, this match is predicted to end in: "
          ++ ((predict c6Store ⟨some "A", some "B"⟩).prediction).toLower ++ ".") :=
  ⟨by decide, by decide, c9_discussion_structure c6Store "A" "B" (by decide) (by decide)⟩

/-- The two mirrored rows of one drawn match between A and B, and a store
holding exactly that single match. -/
def c2RowA : Row :=
  { date := 7, team := "A", opponent := "B", result := Result.D, gf := 1, ga := 1, xg := none }

def c2RowB : Row :=
  { date := 7, team := "B", opponent := "A", result := Result.D, gf := 1, ga := 1, xg := none }

def c2Store : Store := { rows := [c2RowA, c2RowB], hasXg := true }

/-- **C2, counterexample.**  The selected head-to-head window consists of the
two mirrored rows of a single drawn match (one distinct drawn match), yet
the `draws` field is 2: the source counts rows with result = Draw, not
distinct drawn matches. -/
theorem c2_counterexample :
    h2h_window c2Store "A" "B" 5 = [c2RowB, c2RowA] ∧
    c2RowA.team = "A" ∧ c2RowA.opponent = "B" ∧ c2RowA.result = Result.D ∧
    c2RowB.team = "B" ∧ c2RowB.opponent = "A" ∧ c2RowB.result = Result.D ∧
    c2RowA.date = c2RowB.date ∧
    (get_head_to_head c2Store "A" "B" 5).draws = 2 := by
  decide

/-- **C2, amended.**  The `draws` field of the head-to-head snapshot equals
the number of ROWS with result = Draw in the selected window: a drawn match
contributes one per mirrored row present, hence two when both rows fall in
the window. -/
theorem c2_amended_draws_count_rows (st : Store) (home away : String) (n : Nat) :
    (get_head_to_head st home away n).draws =
      ((h2h_window st home away n).filter (fun r => decide (r.result = Result.D))).length := by
  show List.countP _ _ = _
  rw [List.countP_eq_length_filter]

end Predictor
